import Mathlib

/-!
Verification development for the Demand-Genius chatbot repository.

We give a shallow embedding, in Lean, of the query-compilation and
execution layer of the repository (the schema-driven query compiler),
and prove or refute the specification claims about it.

Modelling conventions:
* Mongo `ObjectId`s are natural numbers (`Oid`); the literal ObjectIds
  appearing in the source are written as their 96-bit hex value.
* Each Mongo collection is a Lean list of records; a `DB` value holds
  the six collections the system uses.
* Python `datetime` values are integers (only ordering matters).
* Fallible operations (Mongo rejecting a malformed query, a failing
  round trip) are `Except`-valued.
-/

/-- Mongo ObjectId, modelled as a natural number. -/
abbrev Oid := Nat

/-- A document of the `category_attributes` collection: an attribute value
(e.g. "TOFU") owned by a parent category (e.g. "Funnel Stage") and a tenant. -/
structure CatAttr where
  _id : Oid
  name : String
  category : Oid
  tenant : Oid
  deriving DecidableEq, Repr

/-- A document of one of the flat reference collections
(`topics`, `content_types`, `custom_tags`, `categories`). -/
structure RefDoc where
  _id : Oid
  name : String
  tenant : Oid
  deriving DecidableEq, Repr

/-- A document of the primary collection `sitemaps`.  Fields keep the names
used by the source; fields the claims never inspect carry defaults so that
concrete stores stay short. -/
structure Sitemap where
  _id : Oid
  tenant : Oid
  categoryAttribute : List Oid := []
  topic : Option Oid := none
  contentType : Option Oid := none
  tag : List Oid := []
  geoFocus : String := ""
  isMarketingContent : Bool := false
  createdAt : Int := 0
  wordCount : Nat := 0
  name : String := ""
  description : String := ""
  summary : String := ""
  fullUrl : String := ""
  domain : String := ""
  readerBenefit : String := ""
  deriving DecidableEq, Repr

/-- The document store: the six collections of the system
(five reference collections and the primary `sitemaps` collection). -/
structure DB where
  sitemaps : List Sitemap := []
  category_attributes : List CatAttr := []
  topics : List RefDoc := []
  content_types : List RefDoc := []
  custom_tags : List RefDoc := []
  categories : List RefDoc := []
  deriving DecidableEq, Repr

namespace MongoQueryExecutor

/-!
Embedding of `src/agent_strucutre/query_builder.py` (`MongoQueryExecutor`).
-/

/-- A Python value sitting under a category key of the `filters` dict that
reaches `MongoQueryExecutor`.  The parser's normalisation
(`SmartQueryParser.parse`, `src/agent_strucutre/query_parser.py` lines 51-61)
produces per-category dicts `{"include": [...], "exclude": [...]}` (`vdict`);
the executor's own declared interface is `Dict[str, List[str]]` (`vlist`). -/
inductive FVal where
  | vlist (vs : List String)
  | vdict (inc exc : List String)
  | vstr (s : String)
  deriving DecidableEq, Repr

/-- Python truthiness of an `FVal`: an empty list and the empty string are
falsy, a dict with keys is always truthy. -/
def FVal.falsy : FVal → Bool
  | .vlist vs => vs.isEmpty
  | .vdict _ _ => false
  | .vstr s => s.isEmpty

/-- A Mongo error (malformed query operand, e.g. `$in` applied to a
non-array operand). -/
inductive MErr where
  | inNeedsArray
  deriving DecidableEq, Repr

/-- Embedding of `MongoQueryExecutor._build_category_lookup`
(`src/agent_strucutre/query_builder.py` lines 17-29): converts category
attribute names to ObjectIds with
`db.category_attributes.find({"name": {"$in": category_names}}, {"_id": 1})`.
The query predicate filters by `name` only — it carries no `tenant` field and
no parent-`category` field.  Mongo rejects a non-array `$in` operand. -/
def _build_category_lookup (db : DB) (category_names : FVal) :
    Except MErr (List Oid) :=
  if category_names.falsy then .ok []
  else
    match category_names with
    | .vlist vs =>
        .ok (((db.category_attributes.filter (fun a => a.name ∈ vs)).map
          (fun a => a._id)))
    | _ => .error .inNeedsArray

/-- Embedding of `MongoQueryExecutor._build_reference_lookup`
(`src/agent_strucutre/query_builder.py` lines 31-41): converts names to
ObjectIds in a reference collection with
`db[collection].find({"name": {"$in": names}}, {"_id": 1})`.
Again the predicate filters by `name` only, with no tenant scope. -/
def _build_reference_lookup (coll : List RefDoc) (names : FVal) :
    Except MErr (List Oid) :=
  if names.falsy then .ok []
  else
    match names with
    | .vlist vs =>
        .ok ((coll.filter (fun d => d.name ∈ vs)).map (fun d => d._id))
    | _ => .error .inNeedsArray

/-- The `match_query` dict assembled by
`MongoQueryExecutor.fetch_content_by_filters`
(`src/agent_strucutre/query_builder.py` lines 95-148).  Its keys form a fixed
finite set, so we represent the dict as a structure of optional fields; the
source's `dict.update` merges become field overwrites (later filter entries on
the same key overwrite earlier ones, exactly as in Python).  The `geoFocus`
condition stores the raw operand (`FVal`), because the source puts the filter
value under `$in`/`$nin` unchanged and Mongo only checks its shape when the
query runs; the reference conditions store already-resolved ObjectId lists.
Each condition carries the negation flag (`$nin` when true, `$in` when
false). -/
structure MatchQuery where
  tenant : Oid
  createdAt : Option (Option Int × Option Int) := none
  isMarketingContent : Option Bool := none
  geoFocus : Option (Bool × FVal) := none
  topic : Option (Bool × List Oid) := none
  contentType : Option (Bool × List Oid) := none
  tag : Option (Bool × List Oid) := none
  categoryAttribute : Option (Bool × List Oid) := none
  deriving DecidableEq, Repr

/-- One iteration of the filter loop of `fetch_content_by_filters`
(lines 120-148): skip falsy values, dispatch on the category name, resolve
names through the (untenanted) lookups for the reference categories, and
store the condition under the category's field key.  The source collects the
conditions in two lists and then merges both into `match_query` with
`dict.update`; since the two groups touch disjoint key sets and merging is
in iteration order, folding the updates one by one is the same dict. -/
def applyFilter (db : DB) (is_negation : Bool) (q : MatchQuery) :
    String × FVal → Except MErr MatchQuery
  | (category, values) =>
    if values.falsy then .ok q
    else if category = "Language" then
      .ok { q with geoFocus := some (is_negation, values) }
    else if category = "Topics" then do
      let topic_ids ← _build_reference_lookup db.topics values
      .ok { q with topic := some (is_negation, topic_ids) }
    else if category = "Content Type" then do
      let content_type_ids ← _build_reference_lookup db.content_types values
      .ok { q with contentType := some (is_negation, content_type_ids) }
    else if category = "Custom Tags" then do
      let tag_ids ← _build_reference_lookup db.custom_tags values
      .ok { q with tag := some (is_negation, tag_ids) }
    else do
      let attr_ids ← _build_category_lookup db values
      .ok { q with categoryAttribute := some (is_negation, attr_ids) }

/-- Mongo's up-front query validation: `$in`/`$nin` require an array operand.
The only condition that can carry a raw non-array operand is `geoFocus`
(the `Language` branch stores the filter value unchanged). -/
def validateQuery (q : MatchQuery) : Except MErr Unit :=
  match q.geoFocus with
  | some (_, .vlist _) => .ok ()
  | some (_, _) => .error .inNeedsArray
  | none => .ok ()

/-- Mongo `$in` on a scalar (possibly absent) field: the document matches when
the stored value is one of the listed ids; an absent field matches nothing. -/
def inScalar (ids : List Oid) (x : Option Oid) : Bool :=
  match x with
  | some i => ids.contains i
  | none => false

/-- Mongo `$in` on an array field: some element is among the listed ids. -/
def inArray (ids : List Oid) (xs : List Oid) : Bool :=
  xs.any (fun x => ids.contains x)

/-- Document-level semantics of the assembled `match_query` (the `$match`
stage both of the count pipeline and of the data pipeline): all present
conditions must hold; `$nin` is the negation of `$in` (and therefore matches
documents whose field is absent). -/
def evalMatch (q : MatchQuery) (d : Sitemap) : Bool :=
  (d.tenant = q.tenant : Bool)
  && (match q.createdAt with
      | none => true
      | some (g, l) =>
          (match g with | none => true | some a => a ≤ d.createdAt)
          && (match l with | none => true | some b => d.createdAt ≤ b))
  && (match q.isMarketingContent with
      | none => true
      | some b => d.isMarketingContent = b)
  && (match q.geoFocus with
      | none => true
      | some (neg, .vlist vs) =>
          if neg then !(vs.contains d.geoFocus) else vs.contains d.geoFocus
      | some (_, _) => false)
  && (match q.topic with
      | none => true
      | some (neg, ids) =>
          if neg then !(inScalar ids d.topic) else inScalar ids d.topic)
  && (match q.contentType with
      | none => true
      | some (neg, ids) =>
          if neg then !(inScalar ids d.contentType) else inScalar ids d.contentType)
  && (match q.tag with
      | none => true
      | some (neg, ids) =>
          if neg then !(inArray ids d.tag) else inArray ids d.tag)
  && (match q.categoryAttribute with
      | none => true
      | some (neg, ids) =>
          if neg then !(inArray ids d.categoryAttribute)
          else inArray ids d.categoryAttribute)

/-- A `sitemaps` document after the four `$lookup` stages of
`MongoQueryExecutor._build_lookup_pipeline` (lines 43-80). -/
structure EnrichedDoc where
  doc : Sitemap
  topic_info : List RefDoc
  content_type_info : List RefDoc
  category_info : List CatAttr
  tag_info : List RefDoc
  deriving DecidableEq, Repr

/-- The four `$lookup` stages joining `topics`, `content_types`,
`category_attributes` and `custom_tags` onto one document. -/
def enrich (db : DB) (d : Sitemap) : EnrichedDoc :=
  { doc := d
    topic_info := db.topics.filter (fun r => d.topic = some r._id)
    content_type_info := db.content_types.filter (fun r => d.contentType = some r._id)
    category_info := db.category_attributes.filter (fun a => d.categoryAttribute.contains a._id)
    tag_info := db.custom_tags.filter (fun r => d.tag.contains r._id) }

/-- Return value of `fetch_content_by_filters` (lines 163-171). -/
structure FetchResult where
  data : List EnrichedDoc
  total_count : Nat
  page : Nat
  page_size : Nat
  total_pages : Nat
  has_next : Bool
  has_prev : Bool
  deriving DecidableEq, Repr

/-- The documents selected by the `$match` stage shared by the count pipeline
and the data pipeline of `fetch_content_by_filters`. -/
def matchedDocs (db : DB) (q : MatchQuery) : List Sitemap :=
  db.sitemaps.filter (evalMatch q)

/-- Embedding of `MongoQueryExecutor.fetch_content_by_filters`
(`src/agent_strucutre/query_builder.py` lines 82-171).  Builds the match
query (tenant scope, date bounds, marketing flag, per-category conditions
with the single global `is_negation` flag), runs the count pipeline
(`[$match, $count]`) and the data pipeline
(`$match`, four `$lookup`s, `$skip` when `skip > 0`, `$limit` when
`page_size > 0`) and returns data plus pagination metadata.
`skip = (page - 1) * page_size` uses natural subtraction, which agrees with
the source for the claims' 1-based pages.  A Mongo operand error raised by a
reference lookup or by query validation propagates (the source has no
`try`/`except` here). -/
def fetch_content_by_filters (db : DB) (tenant_id : Oid)
    (filters : List (String × FVal))
    (date_filter : Option (Option Int × Option Int) := none)
    (marketing_filter : Option Bool := none)
    (is_negation : Bool := false)
    (page : Nat := 1) (page_size : Nat := 50) : Except MErr FetchResult := do
  let q0 : MatchQuery :=
    { tenant := tenant_id
      createdAt :=
        match date_filter with
        | none => none
        | some (s, e) => if s.isSome || e.isSome then some (s, e) else none
      isMarketingContent := marketing_filter }
  let q ← filters.foldlM (applyFilter db is_negation) q0
  validateQuery q
  let matched := matchedDocs db q
  let skip := (page - 1) * page_size
  let total_count := matched.length
  let enriched := matched.map (enrich db)
  let afterSkip := if skip > 0 then enriched.drop skip else enriched
  let data := if page_size > 0 then afterSkip.take page_size else afterSkip
  let total_pages := (total_count + page_size - 1) / page_size
  .ok { data := data, total_count := total_count, page := page,
        page_size := page_size, total_pages := total_pages,
        has_next := decide (page < total_pages),
        has_prev := decide (1 < page) }

end MongoQueryExecutor

namespace Database

/-!
Embedding of `src/database/models.py`, `src/database/extractor.py` and
`src/database/queries.py`.
-/

/-- Join details of a `FieldMapping` (`join_config` dict in
`src/database/extractor.py`).  `filter_field`/`filter_value` are present only
for the category-attribute mappings; accessing a missing `filter_value` key in
Python raises `KeyError`, which the callers catch. -/
structure JoinConfig where
  from_coll : String
  local_field : String
  foreign_field : String
  filter_field : Option String := none
  filter_value : Option Oid := none
  deriving DecidableEq, Repr

/-- Embedding of `database/models.py` `FieldMapping`. -/
structure FieldMapping where
  category_name : String
  source_collection : String
  field_path : String
  requires_join : Bool
  reference_collection : Option String
  join_config : Option JoinConfig
  is_array : Bool := false
  deriving DecidableEq, Repr

/-- Embedding of `database/models.py` `CollectionInfo`. -/
structure CollectionInfo where
  name : String
  id_field : String
  name_field : String
  tenant_field : String
  deriving DecidableEq, Repr

/-- Embedding of `database/models.py` `TenantSchema` (the `database/` layer's
schema value; the `agent_workflow` layer has its own, distinct one). -/
structure TenantSchema where
  tenant_id : Oid
  categories : List (String × List String)
  field_mappings : List (String × FieldMapping)
  collections_info : List (String × CollectionInfo)
  deriving DecidableEq, Repr

/-- Dict lookup on the `field_mappings` association list
(Python `dict.get`). -/
def getMapping (schema : TenantSchema) (k : String) : Option FieldMapping :=
  (schema.field_mappings.find? (fun p => p.1 == k)).map (fun p => p.2)

/-- The fixed `collections_info` dict built in
`DynamicTenantSchemaExtractor.extract_schema` (lines 146-153); the
`agent_workflow` `TenantSchemaUtil` constructor builds the same dict. -/
def collections_info : List (String × CollectionInfo) :=
  [ ("categories", ⟨"categories", "_id", "name", "tenant"⟩),
    ("category_attributes", ⟨"category_attributes", "_id", "name", "tenant"⟩),
    ("content_types", ⟨"content_types", "_id", "name", "tenant"⟩),
    ("topics", ⟨"topics", "_id", "name", "tenant"⟩),
    ("custom_tags", ⟨"custom_tags", "_id", "name", "tenant"⟩),
    ("sitemaps", ⟨"sitemaps", "_id", "name", "tenant"⟩) ]

/-- Embedding of `DynamicTenantSchemaExtractor.extract_schema`
(`src/database/extractor.py` lines 19-160).  The source returns a static
schema for every tenant (its docstring: "For demo purposes, return a static
schema"); it performs no database access and cannot fail.  The literal
ObjectIds of the `join_config` dicts are written as their hex value. -/
def extract_schema (tenant_id : Oid) : TenantSchema :=
  { tenant_id := tenant_id
    categories :=
      [ ("Page Type", ["Product Page", "Legal Page", "Promotional Page",
          "Resource Hub", "Careers Page", "Podcast Page", "Webinar"]),
        ("Funnel Stage", ["MOFU", "TOFU", "BOFU"]),
        ("Primary Audience", ["Individual Investors", "Live Nation Employees",
          "Job Seekers", "Collectors", "General Audience", "Women of Color",
          "Businesses"]),
        ("Industry", ["Financial Services", "Fashion", "General",
          "Alternative Investments", "Semiconductors", "Digital Infrastructure",
          "Biotech", "Telecommunications"]),
        ("Secondary Audience", ["Financial Advisors", "Businesses", "Collectors",
          "Individual Investors", "General Audience", "Freelancers",
          "Job Seekers", "College Students", "Women of Color"]) ]
    field_mappings :=
      [ ("Page Type",
          { category_name := "Page Type", source_collection := "sitemaps",
            field_path := "categoryAttribute", requires_join := true,
            reference_collection := some "category_attributes",
            join_config := some
              { from_coll := "category_attributes",
                local_field := "categoryAttribute", foreign_field := "_id",
                filter_field := some "category",
                filter_value := some 0x6875f3afa677f67a172c63a6 },
            is_array := true }),
        ("Funnel Stage",
          { category_name := "Funnel Stage", source_collection := "sitemaps",
            field_path := "categoryAttribute", requires_join := true,
            reference_collection := some "category_attributes",
            join_config := some
              { from_coll := "category_attributes",
                local_field := "categoryAttribute", foreign_field := "_id",
                filter_field := some "category",
                filter_value := some 0x6875f3afa677f67a172c63a7 },
            is_array := true }),
        ("Primary Audience",
          { category_name := "Primary Audience", source_collection := "sitemaps",
            field_path := "categoryAttribute", requires_join := true,
            reference_collection := some "category_attributes",
            join_config := some
              { from_coll := "category_attributes",
                local_field := "categoryAttribute", foreign_field := "_id",
                filter_field := some "category",
                filter_value := some 0x6875f3afa677f67a172c63a8 },
            is_array := true }),
        ("Industry",
          { category_name := "Industry", source_collection := "sitemaps",
            field_path := "categoryAttribute", requires_join := true,
            reference_collection := some "category_attributes",
            join_config := some
              { from_coll := "category_attributes",
                local_field := "categoryAttribute", foreign_field := "_id",
                filter_field := some "category",
                filter_value := some 0x6875f3afa677f67a172c63aa },
            is_array := true }),
        ("Secondary Audience",
          { category_name := "Secondary Audience", source_collection := "sitemaps",
            field_path := "categoryAttribute", requires_join := true,
            reference_collection := some "category_attributes",
            join_config := some
              { from_coll := "category_attributes",
                local_field := "categoryAttribute", foreign_field := "_id",
                filter_field := some "category",
                filter_value := some 0x6875f3afa677f67a172c63a9 },
            is_array := true }),
        ("Topic",
          { category_name := "Topic", source_collection := "sitemaps",
            field_path := "topic", requires_join := true,
            reference_collection := some "topics",
            join_config := some
              { from_coll := "topics", local_field := "topic",
                foreign_field := "_id" },
            is_array := false }),
        ("Content Type",
          { category_name := "Content Type", source_collection := "sitemaps",
            field_path := "contentType", requires_join := true,
            reference_collection := some "content_types",
            join_config := some
              { from_coll := "content_types", local_field := "contentType",
                foreign_field := "_id" },
            is_array := false }),
        ("Language",
          { category_name := "Language", source_collection := "sitemaps",
            field_path := "geoFocus", requires_join := false,
            reference_collection := none, join_config := none,
            is_array := false }) ]
    collections_info := collections_info }

/-- Embedding of `_resolve_category_values_to_ids`
(`src/database/queries.py` lines 531-547): resolves human-readable category
values to ObjectIds with
`db.category_attributes.find with name in values, category equal to the
mapping's parent-category id, tenant equal to the tenant` — the lookup is
restricted both by the parent-category id and by the tenant.  A mapping whose
`join_config` lacks the `filter_value` key raises `KeyError`, caught by the
function's `except`, which returns `[]`. -/
def _resolve_category_values_to_ids (db : DB) (schema : TenantSchema)
    (category_name : String) (values : List String) : List Oid :=
  match getMapping schema category_name with
  | none => []
  | some mapping =>
    match mapping.join_config with
    | none => []
    | some jc =>
      match jc.filter_value with
      | none => []
      | some fv =>
          ((db.category_attributes.filter (fun a =>
            values.contains a.name && a.category == fv
              && a.tenant == schema.tenant_id)).map (fun a => a._id))

/-- Embedding of `_resolve_friendly_name_to_id`
(`src/database/queries.py` lines 550-560): `find_one` by `name` and `tenant`
in a reference collection, returning the `_id`. -/
def _resolve_friendly_name_to_id (coll : List RefDoc) (friendly_name : String)
    (tenant_id : Oid) : Option Oid :=
  (coll.find? (fun d => d.name == friendly_name && d.tenant == tenant_id)).map
    (fun d => d._id)

/-- Embedding of `_resolve_reference` (`src/database/queries.py`
lines 563-572): `find_one` by `_id`, returning the `name`. -/
def _resolve_reference (coll : List RefDoc) (object_id : Option Oid) :
    Option String :=
  match object_id with
  | none => none
  | some oid => (coll.find? (fun d => d._id == oid)).map (fun d => d.name)

/-- Embedding of `_resolve_category_attributes_for_sitemap`
(`src/database/queries.py` lines 575-587): the names of the given
category-attribute ids restricted to one parent category. -/
def _resolve_category_attributes_for_sitemap (db : DB) (object_ids : List Oid)
    (category_filter_id : Oid) : List String :=
  if object_ids.isEmpty then []
  else
    ((db.category_attributes.filter (fun a =>
      object_ids.contains a._id && a.category == category_filter_id)).map
        (fun a => a.name))

/-- Name-based dispatch from a `reference_collection` string to the
corresponding collection of `DB` (the source indexes `db[collection_name]`). -/
def getRefColl (db : DB) : String → List RefDoc
  | "topics" => db.topics
  | "content_types" => db.content_types
  | "custom_tags" => db.custom_tags
  | "categories" => db.categories
  | _ => []

/-- One resolved relationship entry of a cleaned document. -/
inductive CleanedField where
  | names (l : List String)
  | nameOpt (o : Option String)
  | text (s : String)
  deriving DecidableEq, Repr

/-- Output of `_clean_content_doc_enhanced` (`src/database/queries.py`
lines 441-486): the direct fields copied on lines 446-459 plus one resolved
entry per field mapping (the `confidence`/`dateModified` entries carry fields
our `Sitemap` model does not track and are omitted). -/
structure CleanedDoc where
  _id : String
  title : String
  fullUrl : String
  domain : String
  description : String
  summary : String
  readerBenefit : String
  wordCount : Nat
  isMarketingContent : Bool
  geoFocus : String
  resolved : List (String × CleanedField)
  deriving DecidableEq, Repr

/-- The relationship-resolution loop of `_clean_content_doc_enhanced`
(lines 462-484), one field mapping at a time.  For the static schema of
`extract_schema`: category-attribute mappings resolve through
`_resolve_category_attributes_for_sitemap` with the mapping's parent-category
id; `Topic`/`Content Type` are single references resolved through
`_resolve_reference`; `Language` is the directly stored scalar.  A
category-attribute mapping without `join_config` sets no entry (the source
`if mapping.join_config:` has no `else`). -/
def resolveMappedField (db : DB) (d : Sitemap) :
    String × FieldMapping → Option (String × CleanedField)
  | (field_name, m) =>
    if m.requires_join && m.reference_collection.isSome then
      if m.field_path == "categoryAttribute" then
        match m.join_config with
        | some jc =>
          match jc.filter_value with
          | some fv =>
              some (field_name,
                .names (_resolve_category_attributes_for_sitemap db
                  d.categoryAttribute fv))
          | none => none
        | none => none
      else if m.field_path == "topic" then
        some (field_name, .nameOpt (_resolve_reference
          (getRefColl db (m.reference_collection.getD "")) d.topic))
      else if m.field_path == "contentType" then
        some (field_name, .nameOpt (_resolve_reference
          (getRefColl db (m.reference_collection.getD "")) d.contentType))
      else
        some (field_name, .nameOpt none)
    else if m.field_path == "geoFocus" then
      some (field_name, .text d.geoFocus)
    else
      some (field_name, .text "")

/-- Embedding of `_clean_content_doc_enhanced` (lines 441-486). -/
def _clean_content_doc_enhanced (db : DB) (schema : TenantSchema)
    (d : Sitemap) : CleanedDoc :=
  { _id := toString d._id
    title := d.name
    fullUrl := d.fullUrl
    domain := d.domain
    description := d.description
    summary := d.summary
    readerBenefit := d.readerBenefit
    wordCount := d.wordCount
    isMarketingContent := d.isMarketingContent
    geoFocus := d.geoFocus
    resolved := schema.field_mappings.filterMap (resolveMappedField db d) }

/-- Embedding of `fetch_content` (`src/database/queries.py` lines 20-31).
The fallible document-store round trip is the `Except`-valued first argument
(a timeout or connection failure is `.error`); the `except` clause of the
source logs and returns the empty list, so a failure is indistinguishable
from a successful empty result. -/
def fetch_content (dbr : Except String DB) (tenant_id : Oid)
    (lim : Nat := 30) (skip : Nat := 0) : List CleanedDoc :=
  match dbr with
  | .error _ => []
  | .ok db =>
      let tenant_schema := extract_schema tenant_id
      (((db.sitemaps.filter (fun d => d.tenant == tenant_id)).drop skip).take
        lim).map (_clean_content_doc_enhanced db tenant_schema)

/-- The `query_filters` dict produced by `_resolve_complex_filters_to_query`
(lines 489-528).  With the static schema the only keys it can hold are
`categoryAttribute` (an `$all` over resolved attribute ids), `topic` and
`contentType` (an equality for one resolved id or an `$in` for several; both
are membership on these scalar fields, so we store the id list), and
`geoFocus` (literal values). -/
structure ResolvedFilters where
  categoryAttribute_all : Option (List Oid) := none
  topic_in : Option (List Oid) := none
  contentType_in : Option (List Oid) := none
  geoFocus_in : Option (List String) := none
  deriving DecidableEq, Repr

/-- One iteration of the loop of `_resolve_complex_filters_to_query`
(lines 494-523), carrying the `query_filters` built so far and the
accumulated `category_conditions` list. -/
def resolveFilterStep (db : DB) (schema : TenantSchema)
    (st : ResolvedFilters × List Oid) (p : String × List String) :
    ResolvedFilters × List Oid :=
  let (qf, conds) := st
  let (field_name, values) := p
  match getMapping schema field_name with
  | none => (qf, conds)
  | some mapping =>
    if mapping.field_path == "categoryAttribute" && mapping.join_config.isSome then
      (qf, conds ++ _resolve_category_values_to_ids db schema field_name values)
    else if mapping.requires_join then
      let resolved_ids := values.filterMap (fun v =>
        _resolve_friendly_name_to_id
          (getRefColl db (mapping.reference_collection.getD "")) v
          schema.tenant_id)
      if resolved_ids.isEmpty then (qf, conds)
      else if mapping.field_path == "topic" then
        ({ qf with topic_in := some resolved_ids }, conds)
      else if mapping.field_path == "contentType" then
        ({ qf with contentType_in := some resolved_ids }, conds)
      else (qf, conds)
    else
      if mapping.field_path == "geoFocus" then
        ({ qf with geoFocus_in := some values }, conds)
      else (qf, conds)

/-- Embedding of `_resolve_complex_filters_to_query` (lines 489-528):
fold the per-field resolution over the filters, then attach the accumulated
category conditions as a single `$all` when non-empty. -/
def _resolve_complex_filters_to_query (db : DB) (schema : TenantSchema)
    (filters : List (String × List String)) : ResolvedFilters :=
  let (qf, conds) :=
    filters.foldl (resolveFilterStep db schema) ({}, [])
  if conds.isEmpty then qf
  else { qf with categoryAttribute_all := some conds }

/-- Document-level semantics of the dict `{"tenant": t}` merged with a
`ResolvedFilters` value: Mongo `$all` on the array field, membership on the
scalar reference fields, membership on `geoFocus`. -/
def evalResolvedFilters (t : Oid) (rf : ResolvedFilters) (d : Sitemap) : Bool :=
  (d.tenant == t)
  && (match rf.categoryAttribute_all with
      | none => true
      | some ids => ids.all (fun i => d.categoryAttribute.contains i))
  && (match rf.topic_in with
      | none => true
      | some ids => MongoQueryExecutor.inScalar ids d.topic)
  && (match rf.contentType_in with
      | none => true
      | some ids => MongoQueryExecutor.inScalar ids d.contentType)
  && (match rf.geoFocus_in with
      | none => true
      | some vs => vs.contains d.geoFocus)

/-- Embedding of `fetch_content_count` (`src/database/queries.py`
lines 52-70): counts the tenant's documents under the optional resolved
filters; the `except` clause returns `0`, so a failed round trip is
indistinguishable from a tenant with no matching documents. -/
def fetch_content_count (dbr : Except String DB) (tenant_id : Oid)
    (filters : Option (List (String × List String)) := none) : Nat :=
  match dbr with
  | .error _ => 0
  | .ok db =>
      let tenant_schema := extract_schema tenant_id
      let rf :=
        match filters with
        | none => {}
        | some fs => _resolve_complex_filters_to_query db tenant_schema fs
      (db.sitemaps.filter (evalResolvedFilters tenant_id rf)).length

/-- The category-condition accumulation loop of
`fetch_content_with_complex_filters` (lines 88-95): resolve each filter
category's values to ids and extend the single flat condition list when the
resolution is non-empty (`if object_ids:`). -/
def accumulate_category_conditions (db : DB) (schema : TenantSchema)
    (category_filters : List (String × List String)) : List Oid :=
  category_filters.foldl
    (fun acc p =>
      let object_ids := _resolve_category_values_to_ids db schema p.1 p.2
      if object_ids.isEmpty then acc else acc ++ object_ids) []

/-- Return value of `fetch_content_with_complex_filters` (the `query_info`
entry only echoes the inputs and is omitted). -/
structure ComplexFetchResult where
  data : List CleanedDoc
  total_count : Nat
  deriving DecidableEq, Repr

/-- Embedding of `fetch_content_with_complex_filters`
(`src/database/queries.py` lines 72-129) with `additional_filters` at its
default `None` (the claims do not exercise the additional-filters branch of
lines 101-109).  For each filter category the values are resolved to ids; a
non-empty resolution extends the single `category_conditions` list
(`if object_ids:`), and the whole list becomes one `$all` condition when
non-empty — a category resolving to no ids therefore contributes nothing to
the query.  On an exception the function returns empty data and a zero
count. -/
def fetch_content_with_complex_filters (dbr : Except String DB)
    (tenant_id : Oid) (category_filters : List (String × List String))
    (lim : Nat := 30) (skip : Nat := 0) : ComplexFetchResult :=
  match dbr with
  | .error _ => { data := [], total_count := 0 }
  | .ok db =>
      let tenant_schema := extract_schema tenant_id
      let category_conditions :=
        accumulate_category_conditions db tenant_schema category_filters
      let rf : ResolvedFilters :=
        if category_conditions.isEmpty then {}
        else { categoryAttribute_all := some category_conditions }
      let matched := db.sitemaps.filter (evalResolvedFilters tenant_id rf)
      { data := ((matched.drop skip).take lim).map
          (_clean_content_doc_enhanced db tenant_schema)
        total_count := matched.length }

end Database

namespace TenantSchemaUtil

/-!
Embedding of `src/agent_workflow/schema_extractor.py` (`TenantSchemaUtil`).
-/

/-- Dict assignment on an association list: replace the value in place when
the key exists, append otherwise (Python `d[k] = v`). -/
def dictSet (l : List (String × α)) (k : String) (v : α) : List (String × α) :=
  if l.any (fun p => p.1 == k) then
    l.map (fun p => if p.1 == k then (k, v) else p)
  else l ++ [(k, v)]

/-- The `agent_workflow` `TenantSchema` dataclass
(`src/agent_workflow/schema_extractor.py` lines 23-29).  `sample_documents`
is always the empty dict: `get_sample_documents` iterates
`self.collections_info.items()` and indexes the database with the resulting
`(name, info)` tuple, raising a `TypeError` that its `except` swallows into
`\x7b\x7d`. -/
structure TenantSchemaW where
  tenant_id : Oid
  collections : List (String × Database.CollectionInfo)
  categories : List (String × List String)
  sample_documents : List (String × List Sitemap) := []
  total_documents : List (String × Nat)
  deriving DecidableEq, Repr

/-- Embedding of `TenantSchemaUtil.validate_tenant` (lines 46-55): the
existence probe `db.sitemaps.find_one with tenant equal to the id` against
the primary collection. -/
def validate_tenant (db : DB) (tenant_id : Oid) : Bool :=
  (db.sitemaps.find? (fun d => d.tenant == tenant_id)).isSome

/-- Embedding of `TenantSchemaUtil._get_collection_names` (lines 94-102):
all non-empty `name` values of the tenant's documents in one collection,
deduplicated (the source's `list(set(names))` loses order; we keep first
occurrences). -/
def _get_collection_names (tenant_obj_id : Oid) (coll : List RefDoc) :
    List String :=
  (((coll.filter (fun d => d.tenant == tenant_obj_id)).map (fun d => d.name)).filter
    (fun n => n ≠ "")).eraseDups

/-- Embedding of `TenantSchemaUtil.extract_categorical_fields`
(lines 57-92): one entry per tenant category that has at least one named
attribute, then the `Topics` / `Content Types` / `Custom Tags` enumerations
from the dedicated reference collections. -/
def extract_categorical_fields (db : DB) (tenant_id : Oid) :
    List (String × List String) :=
  let fromCategories := (db.categories.filter
    (fun c => c.tenant == tenant_id)).foldl
      (fun acc c =>
        let attrs := db.category_attributes.filter
          (fun a => a.tenant == tenant_id && a.category == c._id)
        let unique_attributes :=
          ((attrs.map (fun a => a.name)).filter (fun n => n ≠ "")).eraseDups
        if unique_attributes.isEmpty then acc
        else dictSet acc c.name unique_attributes) []
  let withTopics := dictSet fromCategories "Topics"
    (_get_collection_names tenant_id db.topics)
  let withCT := dictSet withTopics "Content Types"
    (_get_collection_names tenant_id db.content_types)
  dictSet withCT "Custom Tags" (_get_collection_names tenant_id db.custom_tags)

/-- Embedding of `TenantSchemaUtil.get_collection_counts` (lines 132-146):
per-collection document counts for the tenant, in `collections_info` order. -/
def get_collection_counts (db : DB) (tenant_id : Oid) : List (String × Nat) :=
  [ ("categories", (db.categories.filter (fun d => d.tenant == tenant_id)).length),
    ("category_attributes",
      (db.category_attributes.filter (fun d => d.tenant == tenant_id)).length),
    ("content_types",
      (db.content_types.filter (fun d => d.tenant == tenant_id)).length),
    ("topics", (db.topics.filter (fun d => d.tenant == tenant_id)).length),
    ("custom_tags",
      (db.custom_tags.filter (fun d => d.tenant == tenant_id)).length),
    ("sitemaps", (db.sitemaps.filter (fun d => d.tenant == tenant_id)).length) ]

/-- Embedding of `TenantSchemaUtil.get_tenant_schema` (lines 160-191):
returns `None` (after a warning) when `validate_tenant` fails — that is,
when the tenant has no document in the primary collection — and otherwise
assembles the schema. -/
def get_tenant_schema (db : DB) (tenant_id : Oid) : Option TenantSchemaW :=
  if validate_tenant db tenant_id then
    some
      { tenant_id := tenant_id
        collections := Database.collections_info
        categories := extract_categorical_fields db tenant_id
        sample_documents := []
        total_documents := get_collection_counts db tenant_id }
  else none

end TenantSchemaUtil

namespace MongoQueryBuilder

/-!
Embedding of `src/agent_workflow/query_builder.py` (`MongoQueryBuilder`).
-/

/-- The pipeline stages `MongoQueryBuilder` can emit, one constructor per
literal stage dict of the source. -/
inductive Stage where
  | matchTenant (t : Oid)
  | lookupCategoryDetails
  | matchCategoryConds (conds : List (Oid × List String))
  | matchSemantic (terms : List String)
  | sortCreatedAtDesc
  | limitStage (n : Nat)
  | projectListFields
  | groupByCategoryAttribute
  | groupInsight
  | sortCountDesc
  | countStage
  deriving DecidableEq, Repr

/-- The query-spec dict returned by `build_query` and consumed by
`execute_query`: an aggregation pipeline, a `count_documents` filter (whose
optional `tenant` key we record), a `find` filter with a limit, or an
operation name `execute_query` does not know. -/
inductive QuerySpec where
  | aggregate (collection : String) (pipeline : List Stage)
  | count_documents (collection : String) (tenantFilter : Option Oid)
  | findOp (collection : String) (tenantFilter : Option Oid) (lim : Nat)
  | unknown (operation : String)
  deriving DecidableEq, Repr

/-- A pipeline row: a `sitemaps` document plus the `categoryDetails` array
added by the `$lookup` stage of `_build_category_filters`. -/
structure AggRow where
  doc : Sitemap
  categoryDetails : List CatAttr := []
  deriving DecidableEq, Repr

/-- A row produced by the `$group` stages of the aggregate / insight
pipelines: key is the grouped `categoryAttribute` array, with document count
and word statistics. -/
structure GroupRow where
  key : List Oid
  count : Nat
  total_words : Nat
  avg_words : ℚ
  deriving DecidableEq, Repr

/-- State of a running aggregation: plain document rows, grouped rows, or
the output of a `$count` stage. -/
inductive AggState where
  | rows (l : List AggRow)
  | grouped (l : List GroupRow)
  | counted (n : Nat)
  deriving DecidableEq, Repr

/-- Case-insensitive substring test (the `$regex` with option `i` used by the
semantic `$or` condition); a pattern occurs in `s` iff splitting on it
produces more than one piece, or the pattern is empty. -/
def containsCI (s pat : String) : Bool :=
  pat == "" || (s.toLower.splitOn pat.toLower).length > 1

/-- Group rows by their `categoryAttribute` array (Mongo `$group` with
`_id: d.categoryAttribute`), computing count, summed and averaged
`wordCount`. -/
def groupRows (l : List AggRow) : List GroupRow :=
  ((l.map (fun r => r.doc.categoryAttribute)).eraseDups).map (fun key =>
    let members := l.filter (fun r => r.doc.categoryAttribute == key)
    let total := (members.map (fun r => r.doc.wordCount)).sum
    { key := key, count := members.length, total_words := total,
      avg_words := (total : ℚ) / (members.length : ℚ) })

/-- Evaluation of one pipeline stage over the document store.  The
`matchCategoryConds` semantics follows Mongo dot-notation on arrays: each of
the two `$and` conjuncts may be witnessed by a different `categoryDetails`
element.  Stages applied to a state of the wrong shape leave it unchanged
(unreachable for the pipelines the builder emits). -/
def evalStage (db : DB) (st : AggState) : Stage → AggState
  | .matchTenant t =>
    match st with
    | .rows l => .rows (l.filter (fun r => r.doc.tenant == t))
    | s => s
  | .lookupCategoryDetails =>
    match st with
    | .rows l => .rows (l.map (fun r =>
        { r with categoryDetails := (db.category_attributes.filter
            (fun a => r.doc.categoryAttribute.contains a._id)) }))
    | s => s
  | .matchCategoryConds conds =>
    match st with
    | .rows l => .rows (l.filter (fun r =>
        conds.any (fun c =>
          r.categoryDetails.any (fun a => a.category == c.1)
            && r.categoryDetails.any (fun a => c.2.contains a.name))))
    | s => s
  | .matchSemantic terms =>
    match st with
    | .rows l => .rows (l.filter (fun r =>
        terms.isEmpty
          || terms.any (fun t =>
              containsCI r.doc.name t || containsCI r.doc.description t
                || containsCI r.doc.summary t)))
    | s => s
  | .sortCreatedAtDesc =>
    match st with
    | .rows l => .rows (l.insertionSort (fun a b => b.doc.createdAt ≤ a.doc.createdAt))
    | s => s
  | .limitStage n =>
    match st with
    | .rows l => .rows (l.take n)
    | .grouped l => .grouped (l.take n)
    | s => s
  | .projectListFields => st
  | .groupByCategoryAttribute =>
    match st with
    | .rows l => .grouped (groupRows l)
    | s => s
  | .groupInsight =>
    match st with
    | .rows l => .grouped (groupRows l)
    | s => s
  | .sortCountDesc =>
    match st with
    | .grouped l => .grouped (l.insertionSort (fun a b => b.count ≤ a.count))
    | s => s
  | .countStage =>
    match st with
    | .rows l => .counted l.length
    | s => s

/-- Result of `execute_query`: aggregation output or a document count. -/
inductive ExecResult where
  | agg (st : AggState)
  | num (n : Nat)
  | docs (l : List Sitemap)
  deriving DecidableEq, Repr

/-- Embedding of `MongoQueryBuilder.execute_query`
(`src/agent_workflow/query_builder.py` lines 240-258).  It dispatches on the
operation and runs it directly; it performs no inspection of the pipeline
whatsoever — in particular it does not check that the first stage restricts
by tenant.  Any exception (including the `ValueError` raised for an unknown
operation) is caught and turned into `None`. -/
def execute_query (db : DB) (spec : QuerySpec) : Option ExecResult :=
  match spec with
  | .aggregate _ pipeline =>
      some (.agg (pipeline.foldl (evalStage db)
        (.rows (db.sitemaps.map (fun d => { doc := d })))))
  | .count_documents _ tf =>
      match tf with
      | some t => some (.num (db.sitemaps.filter (fun d => d.tenant == t)).length)
      | none => some (.num db.sitemaps.length)
  | .findOp _ tf lim =>
      match tf with
      | some t => some (.docs ((db.sitemaps.filter (fun d => d.tenant == t)).take lim))
      | none => some (.docs (db.sitemaps.take lim))
  | .unknown _ => none

/-- Embedding of `MongoQueryBuilder._get_category_id` (lines 227-238):
`db.categories.find_one` by tenant and name. -/
def _get_category_id (db : DB) (tenant_id : Oid) (category_name : String) :
    Option Oid :=
  (db.categories.find? (fun c =>
    c.tenant == tenant_id && c.name == category_name)).map (fun c => c._id)

/-- Embedding of `MongoQueryBuilder._build_category_filters`
(lines 186-225): a `$lookup` of `category_attributes` onto
`categoryAttribute` followed by a `$match` whose `$or` holds one
`$and`-pair per filter category that has values and a known category id. -/
def _build_category_filters (db : DB) (tenant_id : Oid)
    (filters : List (String × List String)) : List Stage :=
  if filters.isEmpty then []
  else
    let match_conditions := filters.filterMap (fun p =>
      if p.2.isEmpty then none
      else
        match _get_category_id db tenant_id p.1 with
        | some category_id => some (category_id, p.2)
        | none => none)
    [Stage.lookupCategoryDetails]
      ++ (if match_conditions.isEmpty then []
          else [Stage.matchCategoryConds match_conditions])

/-- Errors `build_query` can raise: the `ValueError` for an unknown tenant,
the `ValueError` for an unknown operation, and the `ValueError` Python's
`dict.update` raises when handed the list of stage dicts returned by
`_build_category_filters` (the aggregate / insight builders do exactly
that on their `base_match.update(category_conditions)` lines). -/
inductive BuildErr where
  | tenantNotFound
  | unknownOperation (op : String)
  | dictUpdateSequence
  deriving DecidableEq, Repr

/-- Embedding of `MongoQueryBuilder._build_list_query` (lines 46-87). -/
def _build_list_query (db : DB) (tenant_id : Oid)
    (filters : List (String × List String)) (semantic_terms : List String) :
    QuerySpec :=
  .aggregate "sitemaps"
    ([Stage.matchTenant tenant_id]
      ++ (if filters.isEmpty then []
          else _build_category_filters db tenant_id filters)
      ++ (if semantic_terms.isEmpty then [] else [Stage.matchSemantic semantic_terms])
      ++ [Stage.sortCreatedAtDesc, Stage.limitStage 300, Stage.projectListFields])

/-- Embedding of `MongoQueryBuilder._build_count_query` (lines 89-116). -/
def _build_count_query (db : DB) (tenant_id : Oid)
    (filters : List (String × List String)) : QuerySpec :=
  if filters.isEmpty then
    .count_documents "sitemaps" (some tenant_id)
  else
    .aggregate "sitemaps"
      ([Stage.matchTenant tenant_id]
        ++ _build_category_filters db tenant_id filters
        ++ [Stage.countStage])

/-- Embedding of `MongoQueryBuilder._build_aggregate_query`
(lines 118-151).  With filters present the source calls
`base_match.update(category_conditions)` where `category_conditions` is the
non-empty list of stage dicts from `_build_category_filters`; `dict.update`
then raises `ValueError`, so the build fails. -/
def _build_aggregate_query (_db : DB) (tenant_id : Oid)
    (filters : List (String × List String)) : Except BuildErr QuerySpec :=
  if filters.isEmpty then
    .ok (.aggregate "sitemaps"
      [Stage.matchTenant tenant_id, Stage.groupByCategoryAttribute,
        Stage.sortCountDesc, Stage.limitStage 300])
  else .error .dictUpdateSequence

/-- Embedding of `MongoQueryBuilder._build_insight_query` (lines 153-184);
the same `dict.update` failure as the aggregate builder when filters are
present. -/
def _build_insight_query (_db : DB) (tenant_id : Oid)
    (filters : List (String × List String)) : Except BuildErr QuerySpec :=
  if filters.isEmpty then
    .ok (.aggregate "sitemaps"
      [Stage.matchTenant tenant_id, Stage.groupInsight,
        Stage.sortCountDesc, Stage.limitStage 300])
  else .error .dictUpdateSequence

/-- Embedding of `MongoQueryBuilder.build_query` (lines 21-44): fetch the
tenant schema (raising for an unknown tenant), then dispatch to the builder
for the operation. -/
def build_query (db : DB) (operation : String) (tenant_id : Oid)
    (filters : List (String × List String)) (semantic_terms : List String) :
    Except BuildErr QuerySpec :=
  match TenantSchemaUtil.get_tenant_schema db tenant_id with
  | none => .error .tenantNotFound
  | some _ =>
    if operation == "list" then
      .ok (_build_list_query db tenant_id filters semantic_terms)
    else if operation == "count" then
      .ok (_build_count_query db tenant_id filters)
    else if operation == "aggregate" then
      _build_aggregate_query db tenant_id filters
    else if operation == "insight" then
      _build_insight_query db tenant_id filters
    else .error (.unknownOperation operation)

/-- A query spec restricts by tenant up front: an aggregation's first stage
is a tenant `$match`, and a `count_documents` / `find` filter carries the
tenant key. -/
def firstStageTenantScoped (spec : QuerySpec) (t : Oid) : Prop :=
  match spec with
  | .aggregate _ pipeline => pipeline.head? = some (.matchTenant t)
  | .count_documents _ tf => tf = some t
  | .findOp _ tf _ => tf = some t
  | .unknown _ => False

end MongoQueryBuilder

namespace SmartQuery

/-!
Embedding of the filter normalisation of `SmartQueryParser.parse`
(`src/agent_strucutre/query_parser.py` lines 51-61).
-/

open MongoQueryExecutor in
/-- Backward-compatible normalisation of one parsed filter value: a
list-style value is wrapped into an include dict with an empty exclude list,
a dict keeps (or defaults) its `include` and `exclude` keys, and any other
value is stringified into a one-element include list. -/
def normalizeFVal : FVal → FVal
  | .vlist vs => .vdict vs []
  | .vdict inc exc => .vdict inc exc
  | .vstr s => .vdict [s] []

open MongoQueryExecutor in
/-- The whole-dict normalisation loop of `SmartQueryParser.parse`: the
`QueryResult.filters` that the parser hands to the router always carries the
per-category `include` / `exclude` structure. -/
def normalizeFilters (filters : List (String × FVal)) : List (String × FVal) :=
  filters.map (fun p => (p.1, normalizeFVal p.2))

end SmartQuery

namespace AnalyticsEngine

/-!
Embedding of `AnalyticsEngine.analyze_distribution`
(`src/agent_workflow/analytics_engine.py`), percentage computation of
lines 93-102.  On the only path that reaches these lines the distribution is
a `collections.Counter` over the extracted group values, so the bucket counts
are natural numbers.  (The `value_field` path builds a plain dict, and the
subsequent `distribution.most_common()` call raises `AttributeError`, which
the enclosing `except` turns into an error dict before any percentage is
computed.)  Python's float arithmetic is modelled with exact rationals. -/

/-- Python `round(x, 2)` on a rational: round to the nearest multiple of
`1 / 100` (Python breaks exact ties to even where `round` here rounds half
up; either convention moves the value by at most half a unit in the last
place, which is all the claims rely on). -/
def round2 (x : ℚ) : ℚ := ((round (x * 100) : ℤ) : ℚ) / 100

/-- One element of the `distribution` list of the result dict
(lines 95-102). -/
structure Bucket where
  category : String
  value : ℕ
  percentage : ℚ
  deriving DecidableEq, Repr

/-- The `Counter.most_common()` call of line 101: buckets sorted by count,
descending (Python's sort is stable; so is insertion sort). -/
def most_common (dist : List (String × ℕ)) : List (String × ℕ) :=
  dist.insertionSort (fun a b => b.2 ≤ a.2)

/-- The grand total `sum(distribution.values())` of line 94. -/
def totalOf (dist : List (String × ℕ)) : ℕ := (dist.map (fun p => p.2)).sum

/-- Embedding of lines 93-102 of `analyze_distribution`: each bucket carries
`round((count / total) * 100, 2)` when the total is positive and the literal
`0` otherwise (the guard `if total > 0 else 0` of line 99 prevents any
division by zero). -/
def distribution_with_percentages (dist : List (String × ℕ)) : List Bucket :=
  let total := totalOf dist
  (most_common dist).map (fun p =>
    { category := p.1, value := p.2,
      percentage :=
        if 0 < total then round2 (((p.2 : ℚ) / (total : ℚ)) * 100) else 0 })

end AnalyticsEngine

namespace Database

/-- A search hit as assembled by the three passes of `search_content_by_text`
(`src/database/queries.py` lines 267-369): a cleaned document together with
its `relevance_score` and `match_reason`.  `doc.get("_id")` is `None` when
the `_id` key is absent, hence the optional identifier. -/
structure ScoredDoc where
  _id : Option String
  relevance_score : ℚ
  match_reason : String := ""
  deriving DecidableEq, Repr

/-- The descending stable sort
`sorted(results, key=lambda x: x.get("relevance_score", 0), reverse=True)`
of line 374. -/
def search_sort (results : List ScoredDoc) : List ScoredDoc :=
  results.insertionSort (fun a b => b.relevance_score ≤ a.relevance_score)

/-- The duplicate-removal loop of lines 372-377: walk the sorted hits,
keeping the first occurrence of each identifier (`seen_ids`). -/
def dedup_by_id (seen : List (Option String)) :
    List ScoredDoc → List ScoredDoc
  | [] => []
  | d :: rest =>
    if seen.contains d._id then dedup_by_id seen rest
    else d :: dedup_by_id (d._id :: seen) rest

/-- The final stage of `search_content_by_text` (lines 371-380): sort all
pass results by relevance descending, drop duplicate identifiers keeping the
highest-scored occurrence, and truncate to the requested limit
(`unique_results[:limit]`).  The three search passes only determine the
input list, so the claimed output shape is a property of this function for
every input. -/
def search_results_postprocess (results : List ScoredDoc) (lim : Nat) :
    List ScoredDoc :=
  (dedup_by_id [] (search_sort results)).take lim

end Database

/-!
## Claims
-/

/-- A store with identically-named reference documents owned by two different
tenants (attribute "TOFU" under tenants 1 and 2, topic "Crypto" under
tenants 1 and 2). -/
def tenantIsolationDB : DB :=
  { category_attributes :=
      [ { _id := 10, name := "TOFU", category := 100, tenant := 1 },
        { _id := 20, name := "TOFU", category := 200, tenant := 2 } ]
    topics :=
      [ { _id := 30, name := "Crypto", tenant := 1 },
        { _id := 40, name := "Crypto", tenant := 2 } ] }

/-- C1: the value-to-identifier lookups of `MongoQueryExecutor`
(`_build_category_lookup`, `_build_reference_lookup`) filter by `name` only:
the query predicate carries no tenant identifier, so a lookup made while
compiling tenant 1's filter reads and returns the identifiers of records
owned by tenant 2 (attribute id 20 and topic id 40 below belong to
tenant 2), contradicting the claim that every read is tenant-scoped. -/
theorem c1_lookup_reads_foreign_tenant :
    MongoQueryExecutor._build_category_lookup tenantIsolationDB
      (.vlist ["TOFU"]) = .ok [10, 20]
    ∧ MongoQueryExecutor._build_reference_lookup tenantIsolationDB.topics
      (.vlist ["Crypto"]) = .ok [30, 40]
    ∧ (∃ a ∈ tenantIsolationDB.category_attributes, a._id = 20 ∧ a.tenant = 2)
    ∧ (∃ d ∈ tenantIsolationDB.topics, d._id = 40 ∧ d.tenant = 2) :=
  ⟨rfl, rfl, by decide, by decide⟩

/-- C8 counterexample: when the document-store round trip fails,
`fetch_content` returns the empty list and `fetch_content_count` returns
zero — byte-for-byte the same values a successful call returns on an empty
store — instead of a typed error, refuting the claim that a failed stage is
never silently reported as an empty successful result. -/
theorem c8_failure_returns_empty_success :
    Database.fetch_content (.error "connection timeout") 1 30 0 = []
    ∧ Database.fetch_content (.error "connection timeout") 1 30 0
        = Database.fetch_content (.ok {}) 1 30 0
    ∧ Database.fetch_content_count (.error "connection timeout") 1 none = 0
    ∧ Database.fetch_content_count (.error "connection timeout") 1 none
        = Database.fetch_content_count (.ok {}) 1 none :=
  ⟨rfl, rfl, rfl, rfl⟩

/-- C8 amended: on any failure of the underlying round trip the `except`
clauses of `fetch_content` and `fetch_content_count` swallow the error after
logging and return the empty list resp. a zero count, for every tenant,
pagination window and filter set. -/
theorem c8_amended_errors_swallowed (e : String) (t : Oid) (lim skip : Nat)
    (filters : Option (List (String × List String))) :
    Database.fetch_content (.error e) t lim skip = []
    ∧ Database.fetch_content_count (.error e) t filters = 0 :=
  ⟨rfl, rfl⟩

/-- C9 counterexample: `DynamicTenantSchemaExtractor.extract_schema` — one of
the schema-retrieval entry points of the repository — performs no existence
probe at all and returns its static schema for every tenant, here tenant 99,
for which no store (in particular the empty store, third conjunct) has any
primary record; so schema retrieval does not fail exactly when the tenant
has no records in the primary collection. -/
theorem c9_static_extractor_never_fails :
    (Database.extract_schema 99).tenant_id = 99
    ∧ (Database.extract_schema 99).categories ≠ []
    ∧ TenantSchemaUtil.get_tenant_schema {} 99 = none := by
  decide

/-- C9 amended: the probing retriever `TenantSchemaUtil.get_tenant_schema`
behaves exactly as claimed — it returns a schema precisely when the tenant
has at least one document in the primary `sitemaps` collection (the
`validate_tenant` existence probe), and the returned schema is the tenant's
own; `DynamicTenantSchemaExtractor.extract_schema`, by contrast, never
fails. -/
theorem c9_probe_iff_primary_record (db : DB) (t : Oid) :
    ((TenantSchemaUtil.get_tenant_schema db t).isSome
      ↔ ∃ d ∈ db.sitemaps, d.tenant = t)
    ∧ (∀ s, TenantSchemaUtil.get_tenant_schema db t = some s →
        s.tenant_id = t) := by
  have hval : TenantSchemaUtil.validate_tenant db t = true
      ↔ ∃ d ∈ db.sitemaps, d.tenant = t := by
    unfold TenantSchemaUtil.validate_tenant
    rw [List.find?_isSome]
    simp
  constructor
  · unfold TenantSchemaUtil.get_tenant_schema
    by_cases hv : TenantSchemaUtil.validate_tenant db t
    · simpa [hv] using hval.mp hv
    · simp only [hv, if_false, Option.isSome_none, Bool.false_eq_true,
        false_iff]
      intro hex
      exact hv (hval.mpr hex)
  · intro s hs
    unfold TenantSchemaUtil.get_tenant_schema at hs
    by_cases hv : TenantSchemaUtil.validate_tenant db t
    · simp only [hv, if_true, Option.some.injEq] at hs
      exact hs ▸ rfl
    · simp [hv] at hs

/-- Store with one primary record for tenant 7, witnessing the amended C9
statement. -/
def probeWitnessDB : DB := { sitemaps := [{ _id := 1, tenant := 7 }] }

/-- C9 witness: the amended statement applied at a concrete store and
tenant. -/
theorem c9_probe_witness :
    (TenantSchemaUtil.get_tenant_schema probeWitnessDB 7).isSome :=
  (c9_probe_iff_primary_record probeWitnessDB 7).1.mpr
    ⟨{ _id := 1, tenant := 7 }, by decide, rfl⟩

/-- A store holding two identically-named attributes of one tenant under two
different parent categories: "Businesses" under the Primary Audience parent
(`…63a8`) and under the Secondary Audience parent (`…63a9`). -/
def parentConfusionDB : DB :=
  { category_attributes :=
      [ { _id := 100, name := "Businesses",
          category := 0x6875f3afa677f67a172c63a8, tenant := 1 },
        { _id := 200, name := "Businesses",
          category := 0x6875f3afa677f67a172c63a9, tenant := 1 } ] }

/-- C5 counterexample: "Primary Audience" has a field mapping whose join is
restricted to the parent-category id `…63a8` (first conjunct), yet resolving
its value "Businesses" through `MongoQueryExecutor._build_category_lookup`
returns id 200 as well (second conjunct), an identifier that belongs to the
identically-named value under the Secondary Audience parent `…63a9` (third
conjunct) — the two values do resolve to each other's identifiers. -/
theorem c5_name_lookup_ignores_parent_category :
    ((Database.getMapping (Database.extract_schema 1) "Primary Audience").bind
      (fun m => m.join_config.bind (fun j => j.filter_value)))
        = some 0x6875f3afa677f67a172c63a8
    ∧ MongoQueryExecutor._build_category_lookup parentConfusionDB
        (.vlist ["Businesses"]) = .ok [100, 200]
    ∧ (∃ a ∈ parentConfusionDB.category_attributes,
        a._id = 200 ∧ a.category = 0x6875f3afa677f67a172c63a9) :=
  ⟨rfl, rfl, by decide⟩

/-- C5 amended: the `database/queries.py` resolver
`_resolve_category_values_to_ids` does restrict its lookup by the mapping's
parent-category id (and by the tenant): every identifier it returns belongs
to an attribute of the mapped parent category, so identically-named values
under other parents are never returned by this path.  The
`MongoQueryExecutor._build_category_lookup` path carries no such
restriction. -/
theorem c5_resolver_restricted_by_parent (db : DB)
    (schema : Database.TenantSchema) (cat : String) (values : List String)
    (m : Database.FieldMapping) (jc : Database.JoinConfig) (fv : Oid)
    (hm : Database.getMapping schema cat = some m)
    (hj : m.join_config = some jc) (hf : jc.filter_value = some fv) :
    ∀ i ∈ Database._resolve_category_values_to_ids db schema cat values,
      ∃ a ∈ db.category_attributes,
        a._id = i ∧ a.category = fv ∧ a.tenant = schema.tenant_id
          ∧ a.name ∈ values := by
  intro i hi
  simp only [Database._resolve_category_values_to_ids, hm, hj, hf,
    List.mem_map, List.mem_filter, Bool.and_eq_true, beq_iff_eq,
    List.elem_iff, decide_eq_true_eq] at hi
  obtain ⟨a, ⟨ha, ⟨hname, hcat⟩, htenant⟩, rfl⟩ := hi
  exact ⟨a, ha, rfl, hcat, htenant, hname⟩

/-- C5 witness: the amended statement applied to the two-parent store for
the "Primary Audience" mapping and the identifier it actually returns. -/
theorem c5_resolver_witness :
    ∃ a ∈ parentConfusionDB.category_attributes,
      a._id = 100 ∧ a.category = 0x6875f3afa677f67a172c63a8 ∧ a.tenant = 1
        ∧ a.name ∈ ["Businesses"] :=
  c5_resolver_restricted_by_parent parentConfusionDB
    (Database.extract_schema 1) "Primary Audience" ["Businesses"] _ _ _
    rfl rfl rfl 100 (by decide)

/-- A store where tenant 1 owns two primary records and a single "TOFU"
attribute under the Funnel Stage parent, so that filter values other than
"TOFU" resolve to no identifiers. -/
def emptyResolutionDB : DB :=
  { sitemaps := [ { _id := 1, tenant := 1 }, { _id := 2, tenant := 1 } ]
    category_attributes :=
      [ { _id := 50, name := "TOFU",
          category := 0x6875f3afa677f67a172c63a7, tenant := 1 } ] }

/-- C4 counterexample: the filter value "Nonexistent" for "Funnel Stage"
resolves to zero identifiers (first conjunct), yet the request matches all
of the tenant's records — total count 2 and both records returned — because
the empty resolution contributes no condition at all, instead of the claimed
empty successful result. -/
theorem c4_empty_resolution_matches_all :
    Database._resolve_category_values_to_ids emptyResolutionDB
      (Database.extract_schema 1) "Funnel Stage" ["Nonexistent"] = []
    ∧ (Database.fetch_content_with_complex_filters (.ok emptyResolutionDB) 1
        [("Funnel Stage", ["Nonexistent"])]).total_count = 2
    ∧ (Database.fetch_content_with_complex_filters (.ok emptyResolutionDB) 1
        [("Funnel Stage", ["Nonexistent"])]).data.length = 2 :=
  ⟨rfl, rfl, rfl⟩

/-- Helper for the amended C4 statement: when every filter category resolves
to zero identifiers, the accumulated condition list stays empty. -/
theorem accumulate_category_conditions_eq_nil (db : DB)
    (schema : Database.TenantSchema)
    (category_filters : List (String × List String))
    (h : ∀ p ∈ category_filters,
      Database._resolve_category_values_to_ids db schema p.1 p.2 = []) :
    Database.accumulate_category_conditions db schema category_filters = [] := by
  unfold Database.accumulate_category_conditions
  suffices hgen : ∀ acc : List Oid, category_filters.foldl
      (fun acc p =>
        let object_ids := Database._resolve_category_values_to_ids db schema p.1 p.2
        if object_ids.isEmpty then acc else acc ++ object_ids) acc = acc by
    exact hgen []
  induction category_filters with
  | nil => intro acc; rfl
  | cons p ps ih =>
    intro acc
    have hp := h p (List.mem_cons_self p ps)
    simp only [List.foldl_cons, hp, List.isEmpty_nil, if_true]
    exact ih (fun q hq => h q (List.mem_cons_of_mem p hq)) acc

/-- C4 amended: when every category of the filter specification resolves to
zero storage identifiers, `fetch_content_with_complex_filters` drops the
category predicate entirely: the request behaves exactly like the same
request with no category filters, succeeding and matching all of the
tenant's records (subject only to the remaining conditions), rather than
matching none. -/
theorem c4_amended_empty_resolution_drops_predicate (db : DB) (t : Oid)
    (category_filters : List (String × List String)) (lim skip : Nat)
    (h : ∀ p ∈ category_filters,
      Database._resolve_category_values_to_ids db (Database.extract_schema t)
        p.1 p.2 = []) :
    Database.fetch_content_with_complex_filters (.ok db) t category_filters
        lim skip
      = Database.fetch_content_with_complex_filters (.ok db) t [] lim skip := by
  unfold Database.fetch_content_with_complex_filters
  simp only [accumulate_category_conditions_eq_nil db
      (Database.extract_schema t) category_filters h,
    show Database.accumulate_category_conditions db
      (Database.extract_schema t) [] = [] from rfl]

/-- C4 witness: the amended statement at the concrete store — the request
whose only category resolves to nothing equals the unfiltered request. -/
theorem c4_amended_witness :
    Database.fetch_content_with_complex_filters (.ok emptyResolutionDB) 1
        [("Funnel Stage", ["Nonexistent"])] 30 0
      = Database.fetch_content_with_complex_filters (.ok emptyResolutionDB) 1
        [] 30 0 :=
  c4_amended_empty_resolution_drops_predicate emptyResolutionDB 1
    [("Funnel Stage", ["Nonexistent"])] 30 0 (by decide)

/-- A store holding primary records of two different tenants. -/
def crossTenantDB : DB :=
  { sitemaps := [ { _id := 1, tenant := 1 }, { _id := 2, tenant := 2 } ] }

/-- C2 counterexample: the empty aggregation pipeline restricts by no tenant
whatsoever (it has no first `$match` stage at all — conjuncts three and
four), yet `MongoQueryBuilder.execute_query` runs it and returns both
tenants' records instead of an error. -/
theorem c2_engine_executes_unscoped_pipeline :
    MongoQueryBuilder.execute_query crossTenantDB (.aggregate "sitemaps" [])
      = some (.agg (.rows [ { doc := { _id := 1, tenant := 1 } },
          { doc := { _id := 2, tenant := 2 } } ]))
    ∧ MongoQueryBuilder.execute_query crossTenantDB (.aggregate "sitemaps" [])
        ≠ none
    ∧ ¬ MongoQueryBuilder.firstStageTenantScoped (.aggregate "sitemaps" []) 1
    ∧ ¬ MongoQueryBuilder.firstStageTenantScoped (.aggregate "sitemaps" []) 2 := by
  refine ⟨rfl, by decide, by simp [MongoQueryBuilder.firstStageTenantScoped],
    by simp [MongoQueryBuilder.firstStageTenantScoped]⟩

/-- C2 amended: the execution engine itself performs no fail-closed check
and executes whatever pipeline it is given; tenant scoping holds only by
construction in the builder: every query spec `build_query` successfully
returns restricts by the tenant in its first stage (a leading tenant
`$match` for aggregations, the tenant key of the filter for
`count_documents`). -/
theorem c2_built_pipelines_tenant_scoped (db : DB) (op : String) (t : Oid)
    (filters : List (String × List String)) (terms : List String)
    (spec : MongoQueryBuilder.QuerySpec)
    (h : MongoQueryBuilder.build_query db op t filters terms = .ok spec) :
    MongoQueryBuilder.firstStageTenantScoped spec t := by
  unfold MongoQueryBuilder.build_query at h
  cases hschema : TenantSchemaUtil.get_tenant_schema db t with
  | none => rw [hschema] at h; exact absurd h (by simp)
  | some s =>
    rw [hschema] at h
    split_ifs at h with h1 h2 h3 h4
    · obtain rfl : MongoQueryBuilder._build_list_query db t filters terms = spec :=
        by injection h
      unfold MongoQueryBuilder._build_list_query
      rfl
    · obtain rfl : MongoQueryBuilder._build_count_query db t filters = spec :=
        by injection h
      unfold MongoQueryBuilder._build_count_query
      by_cases hf : filters.isEmpty
      · rw [if_pos hf]; rfl
      · rw [if_neg hf]; rfl
    · unfold MongoQueryBuilder._build_aggregate_query at h
      by_cases hf : filters.isEmpty
      · rw [if_pos hf] at h
        obtain rfl := (Except.ok.injEq _ _).mp h
        rfl
      · rw [if_neg hf] at h; exact absurd h (by simp)
    · unfold MongoQueryBuilder._build_insight_query at h
      by_cases hf : filters.isEmpty
      · rw [if_pos hf] at h
        obtain rfl := (Except.ok.injEq _ _).mp h
        rfl
      · rw [if_neg hf] at h; exact absurd h (by simp)

/-- C2 witness: the amended statement applied to a concrete build — a list
query for tenant 7 with no filters produces a pipeline opening with the
tenant `$match`. -/
theorem c2_scoped_witness :
    MongoQueryBuilder.firstStageTenantScoped
      (.aggregate "sitemaps"
        [ .matchTenant 7, .sortCreatedAtDesc, .limitStage 300,
          .projectListFields ]) 7 :=
  c2_built_pipelines_tenant_scoped probeWitnessDB "list" 7 [] []
    (.aggregate "sitemaps"
      [ .matchTenant 7, .sortCreatedAtDesc, .limitStage 300,
        .projectListFields ]) (by rfl)

/-- A store for tenant 1 with one English and one German record. -/
def includeExcludeDB : DB :=
  { sitemaps :=
      [ { _id := 1, tenant := 1, geoFocus := "English" },
        { _id := 2, tenant := 1, geoFocus := "German" } ] }

/-- C3 counterexample: the parser's normalisation hands the router a filter
with both an include and an exclude list for the category "Language" (first
conjunct: the structure passes through unchanged).  Exclude-wins semantics
would require the request to succeed, return the English record and drop the
German one; instead `fetch_content_by_filters` puts the include/exclude dict
itself under `$in` and the query fails with Mongo's invalid-operand error
(second conjunct) — no exclude-wins predicate is ever compiled, for this or
any spec with a per-category exclude list. -/
theorem c3_include_exclude_spec_fails :
    SmartQuery.normalizeFilters [("Language", .vdict ["English"] ["German"])]
      = [("Language", .vdict ["English"] ["German"])]
    ∧ MongoQueryExecutor.fetch_content_by_filters includeExcludeDB 1
        [("Language", .vdict ["English"] ["German"])] none none false 1 50
      = .error .inNeedsArray :=
  ⟨rfl, rfl⟩

/-- C3 amended: per-category exclude lists are never honoured.  Any filter
entry carrying the include/exclude structure makes the whole request fail
with the invalid-operand error, whatever its category (first conjunct);
negation exists only as the single global `is_negation` flag: for a
plain value list the compiled condition is the category's field under
`$nin` (flag set) or `$in` (flag clear) — so with the flag set even include
values are negated, and the choice applies to every category at once, not
per category (second and third conjuncts, for the directly stored
"Language" category). -/
theorem c3_amended_global_negation (db : DB) (t : Oid) (vs : List String)
    (neg : Bool) (hvs : vs ≠ []) :
    (∀ cat inc exc (df : Option (Option Int × Option Int))
        (mf : Option Bool) (page psize : Nat),
      MongoQueryExecutor.fetch_content_by_filters db t [(cat, .vdict inc exc)]
        df mf neg page psize = .error .inNeedsArray)
    ∧ ([("Language", MongoQueryExecutor.FVal.vlist vs)].foldlM
        (MongoQueryExecutor.applyFilter db neg) { tenant := t }
        = Except.ok ({ tenant := t, geoFocus := some (neg, .vlist vs) } :
            MongoQueryExecutor.MatchQuery))
    ∧ (∀ d, d ∈ MongoQueryExecutor.matchedDocs db
          { tenant := t, geoFocus := some (neg, .vlist vs) }
        ↔ d ∈ db.sitemaps ∧ d.tenant = t
            ∧ (if neg then d.geoFocus ∉ vs else d.geoFocus ∈ vs)) := by
  have hempty : vs.isEmpty = false := by
    cases vs with
    | nil => exact absurd rfl hvs
    | cons a l => rfl
  refine ⟨?_, ?_, ?_⟩
  · intro cat inc exc df mf page psize
    by_cases h1 : cat = "Language"
    · subst h1; rfl
    · by_cases h2 : cat = "Topics"
      · subst h2; rfl
      · by_cases h3 : cat = "Content Type"
        · subst h3; rfl
        · by_cases h4 : cat = "Custom Tags"
          · subst h4; rfl
          · simp only [MongoQueryExecutor.fetch_content_by_filters,
              List.foldlM, MongoQueryExecutor.applyFilter,
              MongoQueryExecutor.FVal.falsy, if_neg h1, if_neg h2, if_neg h3,
              if_neg h4, MongoQueryExecutor._build_category_lookup]
            rfl
  · simp only [List.foldlM, MongoQueryExecutor.applyFilter,
      MongoQueryExecutor.FVal.falsy, hempty]
    rfl
  · intro d
    unfold MongoQueryExecutor.matchedDocs
    rw [List.mem_filter]
    unfold MongoQueryExecutor.evalMatch
    cases neg <;>
      simp [List.elem_iff, and_assoc]

/-- C3 witness: the amended statement at a concrete store — with the global
negation flag set, the include list ["English"] compiles to a `$nin`
condition on `geoFocus`. -/
theorem c3_amended_witness :
    ([("Language", MongoQueryExecutor.FVal.vlist ["English"])].foldlM
        (MongoQueryExecutor.applyFilter includeExcludeDB true) { tenant := 1 })
      = Except.ok
        ({ tenant := 1, geoFocus := some (true, .vlist ["English"]) } :
          MongoQueryExecutor.MatchQuery) :=
  (c3_amended_global_negation includeExcludeDB 1 ["English"] true
    (by decide)).2.1

/-- Rounding to two decimals moves a rational by at most `1 / 200`. -/
theorem round2_close (x : ℚ) : |AnalyticsEngine.round2 x - x| ≤ 1 / 200 := by
  unfold AnalyticsEngine.round2
  have h : |x * 100 - ((round (x * 100) : ℤ) : ℚ)| ≤ 1 / 2 :=
    abs_sub_round (x * 100)
  rw [abs_sub_comm] at h
  have heq : ((round (x * 100) : ℤ) : ℚ) / 100 - x
      = (((round (x * 100) : ℤ) : ℚ) - x * 100) / 100 := by ring
  rw [heq, abs_div, abs_of_nonneg (by norm_num : (0 : ℚ) ≤ 100)]
  calc |((round (x * 100) : ℤ) : ℚ) - x * 100| / 100
      ≤ (1 / 2) / 100 := by gcongr
    _ = 1 / 200 := by norm_num

/-- Summing two-decimal roundings moves a list sum by at most `n / 200`. -/
theorem sum_map_round2_close (l : List ℚ) :
    |(l.map AnalyticsEngine.round2).sum - l.sum| ≤ (l.length : ℚ) / 200 := by
  induction l with
  | nil => simp
  | cons x xs ih =>
    simp only [List.map_cons, List.sum_cons, List.length_cons]
    have h1 := round2_close x
    calc |(AnalyticsEngine.round2 x + (xs.map AnalyticsEngine.round2).sum)
          - (x + xs.sum)|
        = |(AnalyticsEngine.round2 x - x)
            + ((xs.map AnalyticsEngine.round2).sum - xs.sum)| := by ring_nf
      _ ≤ |AnalyticsEngine.round2 x - x|
            + |(xs.map AnalyticsEngine.round2).sum - xs.sum| := abs_add _ _
      _ ≤ 1 / 200 + (xs.length : ℚ) / 200 := add_le_add h1 ih
      _ = ((xs.length : ℚ) + 1) / 200 := by ring
      _ = (((xs.length : ℕ) + 1 : ℕ) : ℚ) / 200 := by push_cast; ring

/-- Distributing a sum over the shared divisor of the percentage formula. -/
theorem sum_map_div_total (s : List (String × ℕ)) (T : ℚ) :
    (s.map (fun p => ((p.2 : ℚ) / T) * 100)).sum
      = (((s.map (fun p => p.2)).sum : ℕ) : ℚ) / T * 100 := by
  induction s with
  | nil => simp
  | cons x xs ih =>
    simp only [List.map_cons, List.sum_cons, ih]
    push_cast
    ring

/-- C6: for every distribution handed to the percentage block of
`analyze_distribution`, (a) when the grand total is zero every bucket's
percentage is the literal `0` and no division is performed, (b) when the
total is positive each bucket's percentage is its count divided by the sum
of all counts, times 100, rounded to two decimals, and (c) when the total is
positive the percentages over all buckets sum to 100 up to the rounding
epsilon of half a unit in the last place per bucket. -/
theorem c6_distribution_percentages (dist : List (String × ℕ)) :
    (AnalyticsEngine.totalOf dist = 0 →
      ∀ b ∈ AnalyticsEngine.distribution_with_percentages dist,
        b.percentage = 0)
    ∧ (0 < AnalyticsEngine.totalOf dist →
      ∀ b ∈ AnalyticsEngine.distribution_with_percentages dist,
        b.percentage = AnalyticsEngine.round2
          (((b.value : ℚ) / (AnalyticsEngine.totalOf dist : ℚ)) * 100))
    ∧ (0 < AnalyticsEngine.totalOf dist →
      |((AnalyticsEngine.distribution_with_percentages dist).map
          (fun b => b.percentage)).sum - 100|
        ≤ ((AnalyticsEngine.distribution_with_percentages dist).length : ℚ)
            / 200) := by
  refine ⟨?_, ?_, ?_⟩
  · intro h0 b hb
    simp only [AnalyticsEngine.distribution_with_percentages,
      List.mem_map] at hb
    obtain ⟨p, hp, rfl⟩ := hb
    simp [h0]
  · intro hpos b hb
    simp only [AnalyticsEngine.distribution_with_percentages,
      List.mem_map] at hb
    obtain ⟨p, hp, rfl⟩ := hb
    simp [hpos]
  · intro hpos
    have hperm : List.Perm (AnalyticsEngine.most_common dist) dist :=
      List.perm_insertionSort _ _
    have hsum : ((AnalyticsEngine.most_common dist).map (fun p => p.2)).sum
        = AnalyticsEngine.totalOf dist := (hperm.map _).sum_eq
    have hT : ((AnalyticsEngine.totalOf dist : ℕ) : ℚ) ≠ 0 := by
      exact_mod_cast hpos.ne'
    set gl := (AnalyticsEngine.most_common dist).map
      (fun p => ((p.2 : ℚ) / (AnalyticsEngine.totalOf dist : ℚ)) * 100)
      with hgl
    have hout : (AnalyticsEngine.distribution_with_percentages dist).map
          (fun b => b.percentage) = gl.map AnalyticsEngine.round2 := by
      rw [hgl]
      simp only [AnalyticsEngine.distribution_with_percentages, List.map_map]
      refine List.map_eq_map_iff.mpr ?_
      intro p hp
      simp [hpos]
    have hlen : (AnalyticsEngine.distribution_with_percentages dist).length
        = gl.length := by
      rw [hgl]
      simp [AnalyticsEngine.distribution_with_percentages]
    have hsum100 : gl.sum = 100 := by
      rw [hgl, sum_map_div_total, hsum]
      field_simp
    rw [hout, hlen]
    calc |(gl.map AnalyticsEngine.round2).sum - 100|
        = |(gl.map AnalyticsEngine.round2).sum - gl.sum| := by rw [hsum100]
      _ ≤ (gl.length : ℚ) / 200 := sum_map_round2_close gl

/-- C6 witness: the percentage-sum bound applied to the concrete
distribution with 7 "Blog" and 3 "Video" records. -/
theorem c6_distribution_witness :
    |((AnalyticsEngine.distribution_with_percentages
        [("Blog", 7), ("Video", 3)]).map (fun b => b.percentage)).sum - 100|
      ≤ ((AnalyticsEngine.distribution_with_percentages
          [("Blog", 7), ("Video", 3)]).length : ℚ) / 200 :=
  (c6_distribution_percentages [("Blog", 7), ("Video", 3)]).2.2 (by decide)

/-- The integer ceiling-division formula of the source
(`(total_count + page_size - 1) // page_size`) computes the rational
ceiling. -/
theorem add_pred_div_eq_ceil (N s : ℕ) (hs : 0 < s) :
    ((N + s - 1) / s : ℕ) = ⌈(N : ℚ) / (s : ℚ)⌉₊ := by
  rcases Nat.eq_zero_or_pos N with hN | hN
  · subst hN
    have h1 : (s - 1) / s = 0 := Nat.div_eq_of_lt (by omega)
    simp [h1]
  · set q := (N + s - 1) / s with hq
    have hub : N + s - 1 < (q + 1) * s := by
      rw [hq]; exact (Nat.div_lt_iff_lt_mul hs).mp (Nat.lt_succ_self _)
    have hlb : q * s ≤ N + s - 1 := by
      rw [hq]; exact Nat.div_mul_le_self _ _
    have hq1 : 1 ≤ q := by
      rw [hq, Nat.one_le_div_iff hs]; omega
    have hNle : N ≤ q * s := by
      have h3 : N + s - 1 < q * s + s := by
        calc N + s - 1 < (q + 1) * s := hub
          _ = q * s + s := by ring
      omega
    have hlt : (q - 1) * s < N := by
      rw [Nat.sub_one_mul]
      omega
    have hs' : (0 : ℚ) < (s : ℚ) := by exact_mod_cast hs
    symm
    rw [Nat.ceil_eq_iff (by omega : q ≠ 0)]
    constructor
    · rw [lt_div_iff₀ hs']
      exact_mod_cast hlt
    · rw [div_le_iff₀ hs']
      exact_mod_cast hNle

/-- Splitting a successful `Except` bind into its two successful halves. -/
theorem except_bind_ok {ε α β : Type} {x : Except ε α} {f : α → Except ε β}
    {b : β} (h : (x >>= f) = .ok b) : ∃ a, x = .ok a ∧ f a = .ok b := by
  cases x with
  | error e => simp [Bind.bind, Except.bind] at h
  | ok a => exact ⟨a, rfl, by simpa [Bind.bind, Except.bind] using h⟩

/-- C7: every successful call of `fetch_content_by_filters` with 1-based
page `p` and page size `s ∈ [1, 200]` skips exactly `(p - 1) * s` matched
records (and returns at most `s`), reports
`total_pages = ceil(total_count / s)`, and reports `has_next` exactly when
`p < total_pages`. -/
theorem c7_pagination (db : DB) (t : Oid)
    (filters : List (String × MongoQueryExecutor.FVal))
    (df : Option (Option Int × Option Int)) (mf : Option Bool) (neg : Bool)
    (page psize : Nat) (r : MongoQueryExecutor.FetchResult)
    (_hp : 1 ≤ page) (hs : 1 ≤ psize) (_hs200 : psize ≤ 200)
    (h : MongoQueryExecutor.fetch_content_by_filters db t filters df mf neg
      page psize = .ok r) :
    (∃ q : MongoQueryExecutor.MatchQuery,
      r.data = (((MongoQueryExecutor.matchedDocs db q).map
          (MongoQueryExecutor.enrich db)).drop ((page - 1) * psize)).take psize
      ∧ r.total_count = (MongoQueryExecutor.matchedDocs db q).length)
    ∧ r.total_pages = ⌈(r.total_count : ℚ) / (psize : ℚ)⌉₊
    ∧ (r.has_next = true ↔ page < r.total_pages)
    ∧ r.page = page ∧ r.page_size = psize := by
  unfold MongoQueryExecutor.fetch_content_by_filters at h
  obtain ⟨q, hq, h⟩ := except_bind_ok h
  obtain ⟨u, hu, h⟩ := except_bind_ok h
  dsimp only at h
  obtain rfl : _ = r := (Except.ok.injEq _ _).mp h
  refine ⟨⟨q, ?_, rfl⟩, ?_, ?_, rfl, rfl⟩
  · dsimp only
    rw [if_pos (show psize > 0 from hs)]
    rcases Nat.eq_zero_or_pos ((page - 1) * psize) with h0 | h0
    · rw [h0, if_neg (lt_irrefl 0), List.drop_zero]
    · rw [if_pos h0]
  · exact add_pred_div_eq_ceil _ _ hs
  · exact decide_eq_true_iff

/-- A store with three primary records of tenant 1, for exercising
pagination. -/
def pagedDB : DB :=
  { sitemaps := [ { _id := 1, tenant := 1 }, { _id := 2, tenant := 1 },
      { _id := 3, tenant := 1 } ] }

/-- The result of listing `pagedDB` at page 2 with page size 2. -/
def pagedResult : MongoQueryExecutor.FetchResult :=
  { data := [MongoQueryExecutor.enrich pagedDB { _id := 3, tenant := 1 }]
    total_count := 3
    page := 2
    page_size := 2
    total_pages := 2
    has_next := false
    has_prev := true }

/-- C7 witness: the pagination statement at the concrete store — three
matching records, page 2 of size 2: one record after skipping two, two total
pages, no next page. -/
theorem c7_pagination_witness :
    (∃ q : MongoQueryExecutor.MatchQuery,
      pagedResult.data = (((MongoQueryExecutor.matchedDocs pagedDB q).map
          (MongoQueryExecutor.enrich pagedDB)).drop ((2 - 1) * 2)).take 2
      ∧ pagedResult.total_count
          = (MongoQueryExecutor.matchedDocs pagedDB q).length)
    ∧ pagedResult.total_pages
        = ⌈(pagedResult.total_count : ℚ) / ((2 : ℕ) : ℚ)⌉₊
    ∧ (pagedResult.has_next = true ↔ 2 < pagedResult.total_pages)
    ∧ pagedResult.page = 2 ∧ pagedResult.page_size = 2 :=
  c7_pagination pagedDB 1 [] none none false 2 2 pagedResult
    (by decide) (by decide) (by decide) (by rfl)

/-- The deduplication loop only ever drops elements. -/
theorem dedup_by_id_sublist (seen : List (Option String))
    (l : List Database.ScoredDoc) :
    List.Sublist (Database.dedup_by_id seen l) l := by
  induction l generalizing seen with
  | nil => exact List.Sublist.refl _
  | cons d rest ih =>
    unfold Database.dedup_by_id
    by_cases hd : seen.contains d._id
    · rw [if_pos hd]
      exact (ih seen).trans (List.sublist_cons_self d rest)
    · rw [if_neg hd]
      exact (ih (d._id :: seen)).cons₂ d

/-- No element surviving the deduplication loop carries an identifier that
was already seen when the loop started. -/
theorem mem_dedup_by_id_not_seen (seen : List (Option String))
    (l : List Database.ScoredDoc) :
    ∀ x ∈ Database.dedup_by_id seen l, x._id ∉ seen := by
  induction l generalizing seen with
  | nil => intro x hx; exact absurd hx (by simp [Database.dedup_by_id])
  | cons d rest ih =>
    intro x hx
    unfold Database.dedup_by_id at hx
    by_cases hd : seen.contains d._id
    · rw [if_pos hd] at hx
      exact ih seen x hx
    · rw [if_neg hd] at hx
      rcases List.mem_cons.mp hx with rfl | hx'
      · intro hc
        exact hd (List.elem_iff.mpr hc)
      · intro hc
        exact ih (d._id :: seen) x hx' (List.mem_cons_of_mem _ hc)

/-- The deduplication loop leaves no two elements with the same
identifier. -/
theorem dedup_by_id_pairwise (seen : List (Option String))
    (l : List Database.ScoredDoc) :
    (Database.dedup_by_id seen l).Pairwise (fun a b => a._id ≠ b._id) := by
  induction l generalizing seen with
  | nil => simp [Database.dedup_by_id]
  | cons d rest ih =>
    unfold Database.dedup_by_id
    by_cases hd : seen.contains d._id
    · rw [if_pos hd]; exact ih seen
    · rw [if_neg hd]
      refine List.Pairwise.cons ?_ (ih (d._id :: seen))
      intro y hy
      intro hc
      exact mem_dedup_by_id_not_seen (d._id :: seen) rest y hy
        (hc ▸ List.mem_cons_self _ _)

/-- C10: the list returned by the text-search postprocessing contains no two
entries with the same record identifier, has length at most the requested
limit, and is ordered by non-increasing relevance score — for every
assembled multi-pass result list, so in particular when several passes
matched the same record. -/
theorem c10_search_results_shape (results : List Database.ScoredDoc)
    (lim : Nat) :
    (Database.search_results_postprocess results lim).Pairwise
      (fun a b => a._id ≠ b._id)
    ∧ (Database.search_results_postprocess results lim).length ≤ lim
    ∧ (Database.search_results_postprocess results lim).Sorted
      (fun a b => b.relevance_score ≤ a.relevance_score) := by
  haveI htot : IsTotal Database.ScoredDoc
      (fun a b => b.relevance_score ≤ a.relevance_score) :=
    ⟨fun a b => le_total _ _⟩
  haveI htrans : IsTrans Database.ScoredDoc
      (fun a b => b.relevance_score ≤ a.relevance_score) :=
    ⟨fun _ _ _ hab hbc => le_trans hbc hab⟩
  unfold Database.search_results_postprocess
  refine ⟨?_, ?_, ?_⟩
  · exact (dedup_by_id_pairwise [] (Database.search_sort results)).sublist
      (List.take_sublist _ _)
  · exact List.length_take_le _ _
  · have hsorted : (Database.search_sort results).Sorted
        (fun a b => b.relevance_score ≤ a.relevance_score) :=
      List.sorted_insertionSort _ _
    exact hsorted.sublist
      ((List.take_sublist _ _).trans
        (dedup_by_id_sublist [] (Database.search_sort results)))
